import Mathlib

/-!
Shallow embedding of the password-reset and authentication core of the
BillPayment Django application (`Billpayment/accounts`), together with proofs
of the specified properties.

The embedding translates, from the sources:
  - `accounts/utils.py`   : the reset-token store (redis with an in-memory
                            fallback) as explicit state passing;
  - `accounts/models.py`  : the `User` model with its lowercasing `save`;
  - `accounts/serializers.py` : the forgot/reset password serializers;
  - `accounts/views.py`   : the login, logout, forgot-password,
                            reset-password and verify-reset-token endpoints;
  - `accounts/response_utils.py` / `mixins.py` : the uniform response envelope.

Machine-level aspects that the claims do not touch (wall-clock TTL expiry of
redis keys, the exact Django EmailField regex, the concrete password hash
algorithm) are modelled by explicit abstractions, each documented at its
definition site.
-/

namespace BillPay

/-! ## String lowercasing

Python `str.lower()` as used on email addresses, modelled on the basic latin
range (the same range Lean `Char.toLower` handles). -/

/-- Lowercasing of a string, character by character: model of Python
`str.lower()` on ASCII input. -/
def strLower (s : String) : String :=
  String.mk (s.data.map Char.toLower)

/-- Helper: `Char.ofNat` at a valid code point evaluates back to that code
point. -/
theorem charToNat_ofNat_valid (n : Nat) (h : n.isValidChar) :
    (Char.ofNat n).toNat = n := by
  rw [Char.ofNat, dif_pos h]
  rfl

/-- Lowercasing a character is idempotent. -/
theorem charToLower_idem (c : Char) : c.toLower.toLower = c.toLower := by
  unfold Char.toLower
  by_cases h : c.toNat ≥ 65 ∧ c.toNat ≤ 90
  · rw [if_pos h]
    have hv : (c.toNat + 32).isValidChar := Or.inl (by omega)
    have ht : (Char.ofNat (c.toNat + 32)).toNat = c.toNat + 32 :=
      charToNat_ofNat_valid _ hv
    rw [ht, if_neg (by omega)]
  · rw [if_neg h]
    rw [if_neg h]

/-- Lowercasing a string is idempotent. -/
theorem strLower_idem (s : String) : strLower (strLower s) = strLower s := by
  unfold strLower
  simp only [String.data]
  rw [List.map_map]
  congr 1
  exact List.map_congr_left (fun c _ => charToLower_idem c)

/-! ## Key-value token store (`accounts/utils.py`)

The module-level state of `utils.py`: a redis client that may be absent
(construction failed, `redis_client = None`), present but failing (every call
raises, caught by the `try/except` blocks), or working; plus the process-local
`_memory_store` dict used as fallback.  Both maps are association lists from
key to token.  The `expiry_seconds` argument of `setex` is kept in the
signature but wall-clock expiry itself is outside the embedding: no claim
below involves the passage of time. -/

/-- Association-list lookup (Python dict `.get` / redis `GET`). -/
def alGet : List (String × String) → String → Option String
  | [], _ => none
  | (k, v) :: rest, key => if k = key then some v else alGet rest key

/-- Association-list deletion (Python `del` / redis `DEL`): removes every
binding of the key. -/
def alDel : List (String × String) → String → List (String × String)
  | [], _ => []
  | (k, v) :: rest, key =>
      if k = key then alDel rest key else (k, v) :: alDel rest key

/-- Association-list overwrite (Python dict assignment / redis `SETEX`): the
new binding replaces any previous binding of the key. -/
def alSet (m : List (String × String)) (key v : String) : List (String × String) :=
  (key, v) :: alDel m key

/-- State of the token store of `utils.py`: the redis client (absent /
failing / working, with its key space) and the `_memory_store` fallback
dict. -/
structure StoreState where
  redisAvailable : Bool
  redisFailing : Bool
  redis : List (String × String)
  memory : List (String × String)
deriving Repr, DecidableEq

/-- The redis path is taken when the client exists and its calls do not
raise (`if redis_client: try: ... except: pass`). -/
def redisOk (s : StoreState) : Bool :=
  s.redisAvailable && !s.redisFailing

/-- The store key `f"password_reset:{email.lower()}"` shared by
`store_reset_token`, `get_reset_token` and `delete_reset_token`. -/
def resetKey (email : String) : String :=
  "password_reset:" ++ strLower email

/-- `store_reset_token(email, token, expiry_seconds)` from `utils.py`:
`setex` on redis when possible, otherwise the memory fallback; returns
`True` on every path. -/
def store_reset_token (email token : String) (_expirySeconds : Nat)
    (s : StoreState) : Bool × StoreState :=
  if redisOk s then
    (true, { s with redis := alSet s.redis (resetKey email) token })
  else
    (true, { s with memory := alSet s.memory (resetKey email) token })

/-- `get_reset_token(email)` from `utils.py`: redis `get` when possible
(returning its result even when the key is absent), otherwise the memory
fallback. -/
def get_reset_token (email : String) (s : StoreState) : Option String :=
  if redisOk s then alGet s.redis (resetKey email)
  else alGet s.memory (resetKey email)

/-- `delete_reset_token(email)` from `utils.py`: redis `delete` when
possible, otherwise deletion from the memory fallback; returns `True` on
every path. -/
def delete_reset_token (email : String) (s : StoreState) : Bool × StoreState :=
  if redisOk s then
    (true, { s with redis := alDel s.redis (resetKey email) })
  else
    (true, { s with memory := alDel s.memory (resetKey email) })

/-! ### Store lemmas -/

theorem alGet_alSet_self (m : List (String × String)) (k v : String) :
    alGet (alSet m k v) k = some v := by
  simp [alSet, alGet]

theorem alGet_alDel_self (m : List (String × String)) (k : String) :
    alGet (alDel m k) k = none := by
  induction m with
  | nil => rfl
  | cons p rest ih =>
      obtain ⟨k₀, v₀⟩ := p
      by_cases h : k₀ = k
      · simpa [alDel, h] using ih
      · simpa [alDel, alGet, h] using ih

theorem resetKey_congr {e e' : String} (h : strLower e = strLower e') :
    resetKey e = resetKey e' := by
  simp [resetKey, h]

/-- A token stored for `e` is read back by a `get` for any email with the
same lowercasing, on every redis mode. -/
theorem get_after_put (e e' t : String) (ttl : Nat) (s : StoreState)
    (h : strLower e = strLower e') :
    get_reset_token e' ((store_reset_token e t ttl s).2) = some t := by
  have hk : resetKey e = resetKey e' := resetKey_congr h
  unfold store_reset_token get_reset_token redisOk
  by_cases h1 : s.redisAvailable = true <;> by_cases h2 : s.redisFailing = true <;>
    simp [h1, h2, ← hk, alGet_alSet_self]

/-- After a `delete` for `e`, a `get` for any email with the same
lowercasing finds nothing, on every redis mode. -/
theorem get_after_del (e e' : String) (s : StoreState)
    (h : strLower e = strLower e') :
    get_reset_token e' ((delete_reset_token e s).2) = none := by
  have hk : resetKey e = resetKey e' := resetKey_congr h
  unfold delete_reset_token get_reset_token redisOk
  by_cases h1 : s.redisAvailable = true <;> by_cases h2 : s.redisFailing = true <;>
    simp [h1, h2, ← hk, alGet_alDel_self]

/-! ## User model (`accounts/models.py`) -/

/-- Model of Django password hashing (`set_password` stores a salted hash,
`check_password` compares against it).  The claims only need that the stored
hash determines whether a supplied password verifies, so the hash is an
injective tagging of the password. -/
def hashPassword (p : String) : String :=
  "hashed:" ++ p

/-- The custom `User` of `models.py`: primary key, unique email used as the
username field, names, password hash, `is_active`, `is_email_verified`, and
the auto-updated timestamp. -/
structure User where
  id : Nat
  email : String
  firstName : String
  lastName : String
  passwordHash : String
  isActive : Bool
  isEmailVerified : Bool
  updatedAt : Nat
deriving Repr, DecidableEq

/-- `User.save` from `models.py`: lowercases the email, and `auto_now`
refreshes `updated_at`. -/
def User.save (u : User) (now : Nat) : User :=
  { u with email := strLower u.email, updatedAt := now }

/-- `user.set_password(p)` (Django): replaces the stored hash. -/
def User.setPassword (u : User) (p : String) : User :=
  { u with passwordHash := hashPassword p }

/-- `User.objects.get(email=e)` (exact-match lookup, as in
`ForgotPasswordSerializer.validate_email`). -/
def getUserByEmail (users : List User) (email : String) : Option User :=
  users.find? (fun u => u.email == email)

/-- `User.objects.get(email=e, is_active=True)` (as in both password views). -/
def getActiveUser (users : List User) (email : String) : Option User :=
  users.find? (fun u => u.email == email && u.isActive)

/-- `user.save()` persisted to the table: replaces the row with the same
primary key. -/
def dbSave (users : List User) (u : User) : List User :=
  users.map (fun v => if v.id == u.id then u else v)

/-! ## Response envelope (`accounts/response_utils.py`) -/

/-- The `data` member of the envelope; only the shapes the modelled
endpoints produce. -/
inductive RespData
  | empty
  | validFlag (b : Bool)
  | userTokens
deriving Repr, DecidableEq

/-- The uniform envelope `{status, message, data|errors}` plus the HTTP
status code. -/
structure ApiResponse where
  statusCode : Nat
  status : Bool
  message : String
  errors : List String
  data : RespData
deriving Repr, DecidableEq

/-- `success_response` from `response_utils.py`. -/
def success_response (message : String) (data : RespData) (statusCode : Nat) :
    ApiResponse :=
  ⟨statusCode, true, message, [], data⟩

/-- `error_response` from `response_utils.py` (errors given as a list). -/
def error_response (message : String) (errors : List String) (statusCode : Nat) :
    ApiResponse :=
  ⟨statusCode, false, message, errors, RespData.empty⟩

/-- `validation_error_response` from `response_utils.py`: serializer errors
as `field: error` strings under the message `Validation failed`, HTTP 400. -/
def validation_error_response (fieldErrors : List (String × String)) :
    ApiResponse :=
  error_response "Validation failed"
    (fieldErrors.map (fun p => p.1 ++ ": " ++ p.2)) 400

/-! ## Serializers (`accounts/serializers.py`) -/

/-- Model of Django `EmailField` format validation.  The exact regex of
Django is irrelevant to every claim; the model requires exactly one `@`,
a nonempty local part and a domain containing a dot. -/
def emailWellFormed (s : String) : Bool :=
  let cs := s.data
  let front := cs.takeWhile (fun c => c ≠ '@')
  let back := (cs.dropWhile (fun c => c ≠ '@')).drop 1
  cs.count '@' == 1 && !front.isEmpty && !back.isEmpty && back.contains '.'

/-- `ForgotPasswordSerializer` from `serializers.py`: `EmailField`
validation, then `validate_email`, which looks the user up by lowercased
email (without an `is_active` filter), raises `This account is disabled.`
when the account exists but is inactive, and otherwise returns the
lowercased email (whether or not the account exists). -/
def forgotPasswordValidate (users : List User) (rawEmail : String) :
    Except (String × String) String :=
  if emailWellFormed rawEmail = false then
    Except.error ("email", "Enter a valid email address.")
  else
    match getUserByEmail users (strLower rawEmail) with
    | some u =>
        if u.isActive then Except.ok (strLower rawEmail)
        else Except.error ("email", "This account is disabled.")
    | none => Except.ok (strLower rawEmail)

/-- The four fields of a `reset-password` request body. -/
structure ResetRequest where
  email : String
  token : String
  newPassword : String
  confirmPassword : String
deriving Repr, DecidableEq

/-- `ResetPasswordSerializer` from `serializers.py`: `EmailField` format,
required `token` of at most 100 characters, `new_password` of at least 8
characters (the project settings module with `AUTH_PASSWORD_VALIDATORS` is
not among the sources; per the spec the policy is the registration strength
policy, whose explicit part in the serializer is the length minimum),
required `confirm_password` equal to `new_password`; on success the
validated data is the lowercased email, the token, and the new password. -/
def resetPasswordValidate (r : ResetRequest) :
    Except (String × String) (String × String × String) :=
  if emailWellFormed r.email = false then
    Except.error ("email", "Enter a valid email address.")
  else if r.token = "" then
    Except.error ("token", "This field may not be blank.")
  else if 100 < r.token.length then
    Except.error ("token", "Ensure this field has no more than 100 characters.")
  else if r.newPassword.length < 8 then
    Except.error ("new_password", "This password is too short.")
  else if r.confirmPassword = "" then
    Except.error ("confirm_password", "This field may not be blank.")
  else if r.newPassword ≠ r.confirmPassword then
    Except.error ("confirm_password", "Password confirmation does not match.")
  else
    Except.ok (strLower r.email, r.token, r.newPassword)

/-! ## Views (`accounts/views.py`)

Each endpoint is a function from its request data and the relevant state to
the response and the successor state.  Random token generation and mail
delivery are external effects, passed in as oracle arguments (`freshToken`,
`emailDelivered`). -/

/-- `ForgotPasswordView.post`: validate with `ForgotPasswordSerializer`;
look up the active account; when found, generate a token, store it with a
3600 second expiry, and attempt delivery (success message on delivery, 500
on delivery failure); when no active account exists, the generic success
message with no token side effects. -/
def forgotPassword (users : List User) (store : StoreState)
    (rawEmail freshToken : String) (emailDelivered : Bool) :
    ApiResponse × StoreState :=
  match forgotPasswordValidate users rawEmail with
  | Except.error e => (validation_error_response [e], store)
  | Except.ok email =>
    match getActiveUser users email with
    | some _ =>
        let store1 := (store_reset_token email freshToken 3600 store).2
        if emailDelivered then
          (success_response
            "Password reset email sent successfully. Please check your email."
            RespData.empty 200, store1)
        else
          (error_response "Failed to send password reset email"
            ["Please try again later"] 500, store1)
    | none =>
        (success_response
          "If an account with this email exists, a password reset email has been sent."
          RespData.empty 200, store)

/-- The token-failure response of `ResetPasswordView.post`. -/
def invalidTokenResponse : ApiResponse :=
  error_response "Password reset failed" ["Invalid or expired reset token"] 400

/-- `ResetPasswordView.post`: validate with `ResetPasswordSerializer`; read
the stored token; `if not stored_token or stored_token != token` (Python
truthiness: an absent or empty stored token fails) reject with 400; look up
the active account (404 if missing); otherwise `set_password`, `save`, then
delete the token and report success. -/
def resetPassword (users : List User) (store : StoreState) (r : ResetRequest)
    (now : Nat) : ApiResponse × List User × StoreState :=
  match resetPasswordValidate r with
  | Except.error e => (validation_error_response [e], users, store)
  | Except.ok (email, token, newPassword) =>
    match get_reset_token email store with
    | none => (invalidTokenResponse, users, store)
    | some st =>
      if st = "" ∨ st ≠ token then
        (invalidTokenResponse, users, store)
      else
        match getActiveUser users email with
        | none =>
            (error_response "Password reset failed" ["User not found"] 404,
              users, store)
        | some user =>
            let user1 := (user.setPassword newPassword).save now
            let users1 := dbSave users user1
            let store1 := (delete_reset_token email store).2
            (success_response
              "Password reset successful. You can now login with your new password."
              RespData.empty 200, users1, store1)

/-- `VerifyResetTokenView.post`: raw field access (missing fields modelled
as the empty string, which is what the Python falsiness test rejects); read
the stored token for the lowercased email; `if stored_token and
stored_token == token` report valid, else the 400 failure.  The store is
only read, never written. -/
def verifyResetToken (store : StoreState) (email token : String) :
    ApiResponse × StoreState :=
  if email = "" ∨ token = "" then
    (error_response "Token verification failed"
      ["Email and token are required"] 400, store)
  else
    match get_reset_token (strLower email) store with
    | some st =>
        if st ≠ "" ∧ st = token then
          (success_response "Token is valid" (RespData.validFlag true) 200, store)
        else
          (error_response "Token verification failed"
            ["Invalid or expired token"] 400, store)
    | none =>
        (error_response "Token verification failed"
          ["Invalid or expired token"] 400, store)

/-- Modelled from the spec: `django.contrib.auth.authenticate` is framework
code, not among the sources of this repository.  Per spec 4.5 the issuer
"verifies password against the stored hash"; the model returns the account
whose email equals the supplied username exactly when the password hash
matches. -/
def authenticate (users : List User) (username password : String) :
    Option User :=
  match getUserByEmail users username with
  | none => none
  | some u => if u.passwordHash = hashPassword password then some u else none

/-- `LoginView.post`: require both fields (400 otherwise); call
`authenticate` on the lowercased email; on a user, issue tokens when active,
`Account is disabled` (401) when not; on no user, the uniform
`Invalid email or password` (401). -/
def login (users : List User) (email password : String) : ApiResponse :=
  if email = "" ∨ password = "" then
    error_response "Email and password are required" [] 400
  else
    match authenticate users (strLower email) password with
    | some user =>
        if user.isActive then
          success_response "Login successful" RespData.userTokens 200
        else
          error_response "Account is disabled" [] 401
    | none =>
        error_response "Invalid email or password" [] 401

/-! ## Session tokens (`LogoutView` and the simplejwt collaborator) -/

/-- A refresh token as the claims need it: its blacklist identity (`jti`),
its expiry instant, and whether its signature and structure are valid. -/
structure RefreshTok where
  jti : String
  expiry : Nat
  wellFormed : Bool
deriving Repr, DecidableEq

/-- Modelled from the spec: the blacklist of
`rest_framework_simplejwt.token_blacklist` is framework state, not among the
sources of this repository; per spec 4.5, `revoke` marks the token
permanently unusable for future refresh checks. -/
structure TokenState where
  blacklist : List String
deriving Repr, DecidableEq

/-- Modelled from the spec: `token.blacklist()` records the token identity
in the blacklist. -/
def blacklistToken (t : RefreshTok) (s : TokenState) : TokenState :=
  ⟨t.jti :: s.blacklist⟩

/-- `LogoutView.post` from `views.py`: a missing refresh token is a 400;
`RefreshToken(refresh_token)` raises on a malformed or expired token, which
the `except` turns into the 400 `Invalid refresh token`; otherwise the token
is blacklisted and logout succeeds. -/
def logout (s : TokenState) (tok : Option RefreshTok) (now : Nat) :
    ApiResponse × TokenState :=
  match tok with
  | none => (error_response "Refresh token is required" [] 400, s)
  | some t =>
      if t.wellFormed ∧ now < t.expiry then
        (success_response "Logout successful" RespData.empty 200,
          blacklistToken t s)
      else
        (error_response "Invalid refresh token" [] 400, s)

/-- Modelled from the spec: `TokenRefreshView` (simplejwt) is not among the
sources of this repository; per spec 4.5, `refresh` fails if the token is
invalid, expired, or revoked, and otherwise yields a fresh access token. -/
def refreshCall (s : TokenState) (t : RefreshTok) (now : Nat) :
    Except String String :=
  if t.wellFormed = false then Except.error "Token is invalid or expired"
  else if t.expiry ≤ now then Except.error "Token is invalid or expired"
  else if t.jti ∈ s.blacklist then Except.error "Token is blacklisted"
  else Except.ok ("access:" ++ t.jti)

/-- The operations that can touch the session-token state after a logout:
further logout attempts (refresh calls read the blacklist but never write
it). -/
inductive AuthOp
  | logoutOp (tok : Option RefreshTok) (now : Nat)
deriving Repr

/-- Sequential application of later operations to the token state. -/
def applyOps : List AuthOp → TokenState → TokenState
  | [], s => s
  | AuthOp.logoutOp tok now :: rest, s => applyOps rest (logout s tok now).2

/-! ## Sample data for the concrete witnesses -/

/-- An active account, stored with lowercase email as `User.save` ensures. -/
def aliceUser : User :=
  ⟨1, "alice@example.com", "Alice", "Ames", hashPassword "OldPass99", true, false, 0⟩

/-- A deactivated account. -/
def doraUser : User :=
  ⟨2, "dora@example.com", "Dora", "Dee", hashPassword "OldPass99", false, false, 0⟩

/-- The demo user table. -/
def demoUsers : List User := [aliceUser, doraUser]

/-- A working-redis store holding a token for the active account. -/
def demoStore : StoreState :=
  ⟨true, false, [(resetKey "alice@example.com", "tokA12345")], []⟩

/-- A well-formed reset request matching `demoStore`. -/
def demoRequest : ResetRequest :=
  ⟨"alice@example.com", "tokA12345", "NewPass123", "NewPass123"⟩

/-! ## Inversion helpers -/

/-- Successful `ResetPasswordSerializer` validation determines the validated
triple and guarantees a nonempty token. -/
theorem resetPasswordValidate_ok {r : ResetRequest} {email tok pw : String}
    (h : resetPasswordValidate r = Except.ok (email, tok, pw)) :
    email = strLower r.email ∧ tok = r.token ∧ pw = r.newPassword ∧
      r.token ≠ "" := by
  unfold resetPasswordValidate at h
  split_ifs at h with h1 h2 h3 h4 h5 h6
  all_goals simp_all

/-- A hit of the active-account lookup has the looked-up email and is
active. -/
theorem getActiveUser_email {users : List User} {email : String} {u : User}
    (h : getActiveUser users email = some u) :
    u.email = email ∧ u.isActive = true := by
  unfold getActiveUser at h
  have hp := List.find?_some h
  simpa using hp

/-- If no account has the email at all, the active-account lookup misses
too. -/
theorem getActiveUser_none {users : List User} {email : String}
    (h : getUserByEmail users email = none) :
    getActiveUser users email = none := by
  unfold getUserByEmail at h
  unfold getActiveUser
  rw [List.find?_eq_none] at h ⊢
  intro u hu hc
  rw [Bool.and_eq_true] at hc
  exact h u hu hc.1

/-- Shape of a successful `ResetPasswordView.post`: the success envelope,
the saved account row, and the token deletion. -/
theorem resetPassword_success_eq
    (users : List User) (store : StoreState) (r : ResetRequest) (now : Nat)
    (email tok pw : String) (u : User)
    (hval : resetPasswordValidate r = Except.ok (email, tok, pw))
    (hstored : get_reset_token email store = some tok)
    (htok : tok ≠ "")
    (huser : getActiveUser users email = some u) :
    resetPassword users store r now =
      (success_response
        "Password reset successful. You can now login with your new password."
        RespData.empty 200,
       dbSave users ((u.setPassword pw).save now),
       (delete_reset_token email store).2) := by
  unfold resetPassword
  simp [hval, hstored, huser, htok]

/-- With an active account present, `ForgotPasswordView.post` mutates the
store by exactly one `store_reset_token`, whatever mail delivery does. -/
theorem forgotPassword_store_eq
    (users : List User) (store : StoreState) (raw tok : String) (d : Bool)
    (email : String) (u : User)
    (hv : forgotPasswordValidate users raw = Except.ok email)
    (hu : getActiveUser users email = some u) :
    (forgotPassword users store raw tok d).2 =
      (store_reset_token email tok 3600 store).2 := by
  unfold forgotPassword
  simp only [hv, hu]
  cases d <;> rfl

/-! ## Claims -/

/-- C2: a reset token is usable exactly once.  For an active account and a
matching stored token, a valid reset-password request succeeds (200
success), and repeating the identical request against the resulting state
fails with the 400 invalid-or-expired-token error, because the successful
consumption deleted the stored token. -/
theorem reset_token_single_use
    (users : List User) (store : StoreState) (r : ResetRequest)
    (now now2 : Nat) (email tok pw : String) (u : User)
    (hval : resetPasswordValidate r = Except.ok (email, tok, pw))
    (hstored : get_reset_token email store = some tok)
    (huser : getActiveUser users email = some u) :
    (resetPassword users store r now).1.status = true ∧
    (resetPassword users store r now).1.statusCode = 200 ∧
    (resetPassword (resetPassword users store r now).2.1
        (resetPassword users store r now).2.2 r now2).1 =
      invalidTokenResponse := by
  obtain ⟨he, ht, hp, hblank⟩ := resetPasswordValidate_ok hval
  have htok : tok ≠ "" := ht ▸ hblank
  have h1 := resetPassword_success_eq users store r now email tok pw u hval
    hstored htok huser
  refine ⟨by rw [h1]; rfl, by rw [h1]; rfl, ?_⟩
  rw [h1]
  have hget : get_reset_token email ((delete_reset_token email store).2) = none :=
    get_after_del email email store rfl
  unfold resetPassword
  simp [hval, hget]

/-- Witness for C2 at a concrete state: the stored token matches, the first
reset succeeds, the identical repeat is rejected. -/
theorem reset_token_single_use_witness :
    resetPasswordValidate demoRequest =
        Except.ok ("alice@example.com", "tokA12345", "NewPass123") ∧
    get_reset_token "alice@example.com" demoStore = some "tokA12345" ∧
    getActiveUser demoUsers "alice@example.com" = some aliceUser ∧
    ((resetPassword demoUsers demoStore demoRequest 7).1.status = true ∧
     (resetPassword demoUsers demoStore demoRequest 7).1.statusCode = 200 ∧
     (resetPassword (resetPassword demoUsers demoStore demoRequest 7).2.1
        (resetPassword demoUsers demoStore demoRequest 7).2.2 demoRequest 8).1 =
       invalidTokenResponse) :=
  ⟨rfl, rfl, rfl,
    reset_token_single_use demoUsers demoStore demoRequest 7 8
      "alice@example.com" "tokA12345" "NewPass123" aliceUser rfl rfl rfl⟩

/-- C3: a newly requested token overwrites the previous one.  After a
reset-request stored token A and a later reset-request for the same email
stored token B, a reset-password attempt with A fails with the 400
invalid-or-expired-token error. -/
theorem new_token_invalidates_old
    (users : List User) (store : StoreState)
    (raw tokA tokB pw email : String) (d1 d2 : Bool) (r : ResetRequest)
    (now : Nat) (u : User)
    (hv : forgotPasswordValidate users raw = Except.ok email)
    (hu : getActiveUser users email = some u)
    (hr : resetPasswordValidate r = Except.ok (email, tokA, pw))
    (hAB : tokA ≠ tokB) :
    (resetPassword users
      ((forgotPassword users ((forgotPassword users store raw tokA d1).2)
          raw tokB d2).2) r now).1 = invalidTokenResponse := by
  rw [forgotPassword_store_eq users ((forgotPassword users store raw tokA d1).2)
    raw tokB d2 email u hv hu]
  have hget : get_reset_token email
      ((store_reset_token email tokB 3600
        ((forgotPassword users store raw tokA d1).2)).2) = some tokB :=
    get_after_put email email tokB 3600 _ rfl
  unfold resetPassword
  simp only [hr, hget]
  rw [if_pos (Or.inr (Ne.symm hAB))]

/-- Witness for C3 at a concrete state: request token A then token B for the
same email; resetting with A is rejected. -/
theorem new_token_invalidates_old_witness :
    forgotPasswordValidate demoUsers "alice@example.com" =
        Except.ok "alice@example.com" ∧
    getActiveUser demoUsers "alice@example.com" = some aliceUser ∧
    resetPasswordValidate demoRequest =
        Except.ok ("alice@example.com", "tokA12345", "NewPass123") ∧
    "tokA12345" ≠ "tokB67890" ∧
    (resetPassword demoUsers
      ((forgotPassword demoUsers
          ((forgotPassword demoUsers demoStore "alice@example.com"
              "tokA12345" true).2)
          "alice@example.com" "tokB67890" true).2) demoRequest 7).1 =
      invalidTokenResponse :=
  ⟨rfl, rfl, rfl, by decide,
    new_token_invalidates_old demoUsers demoStore "alice@example.com"
      "tokA12345" "tokB67890" "NewPass123" "alice@example.com" true true
      demoRequest 7 aliceUser rfl rfl rfl (by decide)⟩

/-- C4: the consume operation is atomic on token failure.  For a valid
request body, whenever the stored token is absent, empty, or differs from
the supplied token, the operation returns exactly the 400
invalid-or-expired-token response and leaves both the user table and the
token store unchanged. -/
theorem reset_token_failure_atomic
    (users : List User) (store : StoreState) (r : ResetRequest) (now : Nat)
    (email tok pw : String)
    (hval : resetPasswordValidate r = Except.ok (email, tok, pw))
    (hfail : ∀ st, get_reset_token email store = some st → st = "" ∨ st ≠ tok) :
    resetPassword users store r now = (invalidTokenResponse, users, store) := by
  unfold resetPassword
  simp only [hval]
  split
  · rfl
  · next st hget => rw [if_pos (hfail st hget)]

/-- Witness for C4 at a concrete state: a mismatched supplied token is
rejected with no mutation of users or store. -/
theorem reset_token_failure_atomic_witness :
    (∀ st, get_reset_token "alice@example.com" demoStore = some st →
      st = "" ∨ st ≠ "wrongtok99") ∧
    resetPassword demoUsers demoStore
        ⟨"alice@example.com", "wrongtok99", "NewPass123", "NewPass123"⟩ 7 =
      (invalidTokenResponse, demoUsers, demoStore) := by
  have hfail : ∀ st, get_reset_token "alice@example.com" demoStore = some st →
      st = "" ∨ st ≠ "wrongtok99" := by
    intro st hst
    have h0 : get_reset_token "alice@example.com" demoStore =
        some "tokA12345" := rfl
    rw [h0, Option.some.injEq] at hst
    subst hst
    exact Or.inr (by decide)
  exact ⟨hfail,
    reset_token_failure_atomic demoUsers demoStore
      ⟨"alice@example.com", "wrongtok99", "NewPass123", "NewPass123"⟩ 7
      "alice@example.com" "wrongtok99" "NewPass123" rfl hfail⟩

/-- C6: graceful degradation to the process-local fallback store.  When the
redis client is absent or every call to it raises, put, get and delete still
complete (both `store_reset_token` and `delete_reset_token` return `True`),
the external store is untouched, a put followed by a get for the same email
returns the stored token, and delete removes it. -/
theorem store_fallback_roundtrip (e t : String) (ttl : Nat) (s : StoreState)
    (h : s.redisAvailable = false ∨ s.redisFailing = true) :
    (store_reset_token e t ttl s).1 = true ∧
    ((store_reset_token e t ttl s).2).redis = s.redis ∧
    get_reset_token e ((store_reset_token e t ttl s).2) = some t ∧
    (delete_reset_token e s).1 = true ∧
    ((delete_reset_token e s).2).redis = s.redis ∧
    get_reset_token e ((delete_reset_token e s).2) = none := by
  have hok : (s.redisAvailable && !s.redisFailing) = false := by
    rcases h with h | h <;> simp [h]
  unfold store_reset_token delete_reset_token get_reset_token redisOk
  simp [hok, alGet_alSet_self, alGet_alDel_self]

/-- Witness for C6 at a concrete state with a failing redis client. -/
theorem store_fallback_roundtrip_witness :
    ((StoreState.mk true true [] []).redisAvailable = false ∨
      (StoreState.mk true true [] []).redisFailing = true) ∧
    ((store_reset_token "alice@example.com" "tokA12345" 3600
        (StoreState.mk true true [] [])).1 = true ∧
     ((store_reset_token "alice@example.com" "tokA12345" 3600
        (StoreState.mk true true [] [])).2).redis =
       (StoreState.mk true true [] []).redis ∧
     get_reset_token "alice@example.com"
        ((store_reset_token "alice@example.com" "tokA12345" 3600
          (StoreState.mk true true [] [])).2) = some "tokA12345" ∧
     (delete_reset_token "alice@example.com" (StoreState.mk true true [] [])).1 =
       true ∧
     ((delete_reset_token "alice@example.com"
        (StoreState.mk true true [] [])).2).redis =
       (StoreState.mk true true [] []).redis ∧
     get_reset_token "alice@example.com"
        ((delete_reset_token "alice@example.com"
          (StoreState.mk true true [] [])).2) = none) :=
  ⟨Or.inr rfl,
    store_fallback_roundtrip "alice@example.com" "tokA12345" 3600
      (StoreState.mk true true [] []) (Or.inr rfl)⟩

/-- C8: the verify operation never mutates the token store.  Whatever the
inputs and whatever it reports, the store after a `VerifyResetTokenView.post`
equals the store before it, so any later get reads the same value. -/
theorem verify_does_not_consume (store : StoreState) (email token : String) :
    (verifyResetToken store email token).2 = store ∧
    ∀ e, get_reset_token e (verifyResetToken store email token).2 =
      get_reset_token e store := by
  have hs : (verifyResetToken store email token).2 = store := by
    unfold verifyResetToken
    split
    · rfl
    · split
      · split
        · rfl
        · rfl
      · rfl
  exact ⟨hs, fun e => by rw [hs]⟩

/-- C9: case-insensitive email keying in the token store.  Two emails with
the same lowercasing address the same entry: their keys are equal, a token
stored under one is read back under the other, and a delete under one
removes what a get under the other would see. -/
theorem email_case_insensitive_store (e e' t : String) (ttl : Nat)
    (s : StoreState) (h : strLower e = strLower e') :
    resetKey e = resetKey e' ∧
    get_reset_token e' ((store_reset_token e t ttl s).2) = some t ∧
    get_reset_token e' ((delete_reset_token e s).2) = none :=
  ⟨resetKey_congr h, get_after_put e e' t ttl s h, get_after_del e e' s h⟩

/-- Witness for C9 at two concrete case variants of one email. -/
theorem email_case_insensitive_store_witness :
    strLower "Alice@Example.COM" = strLower "alice@example.com" ∧
    (resetKey "Alice@Example.COM" = resetKey "alice@example.com" ∧
     get_reset_token "alice@example.com"
        ((store_reset_token "Alice@Example.COM" "tokA12345" 3600 demoStore).2) =
       some "tokA12345" ∧
     get_reset_token "alice@example.com"
        ((delete_reset_token "Alice@Example.COM" demoStore).2) = none) :=
  ⟨by decide,
    email_case_insensitive_store "Alice@Example.COM" "alice@example.com"
      "tokA12345" 3600 demoStore (by decide)⟩

/-- C10: on a successful reset-password, the saved account row differs from
the old one only in the password hash and the updated-at timestamp: email,
first name, last name, active flag and email-verification flag are
preserved, and every other row of the table is left as it was by `dbSave`. -/
theorem reset_password_frame
    (users : List User) (store : StoreState) (r : ResetRequest) (now : Nat)
    (email tok pw : String) (u : User)
    (hval : resetPasswordValidate r = Except.ok (email, tok, pw))
    (hstored : get_reset_token email store = some tok)
    (huser : getActiveUser users email = some u) :
    ∃ u1,
      resetPassword users store r now =
        (success_response
          "Password reset successful. You can now login with your new password."
          RespData.empty 200,
         dbSave users u1, (delete_reset_token email store).2) ∧
      u1.email = u.email ∧ u1.firstName = u.firstName ∧
      u1.lastName = u.lastName ∧ u1.isActive = u.isActive ∧
      u1.isEmailVerified = u.isEmailVerified ∧ u1.id = u.id ∧
      u1.passwordHash = hashPassword pw ∧ u1.updatedAt = now := by
  obtain ⟨he, ht, hp, hblank⟩ := resetPasswordValidate_ok hval
  have htok : tok ≠ "" := ht ▸ hblank
  have hue : u.email = email := (getActiveUser_email huser).1
  refine ⟨(u.setPassword pw).save now,
    resetPassword_success_eq users store r now email tok pw u hval hstored
      htok huser, ?_, rfl, rfl, rfl, rfl, rfl, rfl, rfl⟩
  show strLower u.email = u.email
  rw [hue, he, strLower_idem]

/-- Witness for C10 at a concrete state: the saved row keeps every field of
the active user except the hash and the timestamp. -/
theorem reset_password_frame_witness :
    resetPasswordValidate demoRequest =
        Except.ok ("alice@example.com", "tokA12345", "NewPass123") ∧
    get_reset_token "alice@example.com" demoStore = some "tokA12345" ∧
    getActiveUser demoUsers "alice@example.com" = some aliceUser ∧
    ∃ u1,
      resetPassword demoUsers demoStore demoRequest 7 =
        (success_response
          "Password reset successful. You can now login with your new password."
          RespData.empty 200,
         dbSave demoUsers u1,
         (delete_reset_token "alice@example.com" demoStore).2) ∧
      u1.email = aliceUser.email ∧ u1.firstName = aliceUser.firstName ∧
      u1.lastName = aliceUser.lastName ∧ u1.isActive = aliceUser.isActive ∧
      u1.isEmailVerified = aliceUser.isEmailVerified ∧ u1.id = aliceUser.id ∧
      u1.passwordHash = hashPassword "NewPass123" ∧ u1.updatedAt = 7 :=
  ⟨rfl, rfl, rfl,
    reset_password_frame demoUsers demoStore demoRequest 7
      "alice@example.com" "tokA12345" "NewPass123" aliceUser rfl rfl rfl⟩

/-- Monotonicity of the blacklist: later logout attempts never remove an
entry (and refresh calls never write the state at all). -/
theorem blacklist_mem_applyOps (ops : List AuthOp) (s : TokenState)
    (j : String) (h : j ∈ s.blacklist) : j ∈ (applyOps ops s).blacklist := by
  induction ops generalizing s with
  | nil => exact h
  | cons op rest ih =>
      cases op with
      | logoutOp tok now =>
          apply ih
          cases tok with
          | none => exact h
          | some t =>
              show j ∈ (if t.wellFormed = true ∧ now < t.expiry then
                (success_response "Logout successful" RespData.empty 200,
                  blacklistToken t s)
                else (error_response "Invalid refresh token" [] 400, s)).2.blacklist
              by_cases hc : t.wellFormed = true ∧ now < t.expiry
              · rw [if_pos hc]
                exact List.mem_cons_of_mem _ h
              · rw [if_neg hc]
                exact h

/-- C5: a revoked refresh token never refreshes again.  If a logout call
with the token succeeded, then after any sequence of further operations on
the session state, a refresh call with that token fails at every instant,
including instants before its natural expiry. -/
theorem revoked_refresh_always_fails
    (s : TokenState) (t : RefreshTok) (now : Nat)
    (hsucc : (logout s (some t) now).1.status = true)
    (ops : List AuthOp) (now2 : Nat) :
    ∃ msg, refreshCall (applyOps ops (logout s (some t) now).2) t now2 =
      Except.error msg := by
  by_cases hc : t.wellFormed = true ∧ now < t.expiry
  case neg =>
    exfalso
    have hsucc2 : (if t.wellFormed = true ∧ now < t.expiry then
        (success_response "Logout successful" RespData.empty 200,
          blacklistToken t s)
        else (error_response "Invalid refresh token" [] 400, s)).1.status = true :=
      hsucc
    rw [if_neg hc] at hsucc2
    exact Bool.false_ne_true hsucc2
  case pos =>
    have hmem : t.jti ∈ ((logout s (some t) now).2).blacklist := by
      show t.jti ∈ (if t.wellFormed = true ∧ now < t.expiry then
        (success_response "Logout successful" RespData.empty 200,
          blacklistToken t s)
        else (error_response "Invalid refresh token" [] 400, s)).2.blacklist
      rw [if_pos hc]
      exact List.mem_cons_self _ _
    have hmem2 := blacklist_mem_applyOps ops _ _ hmem
    unfold refreshCall
    by_cases hw : t.wellFormed = false
    · exact ⟨"Token is invalid or expired", by rw [if_pos hw]⟩
    · by_cases hexp : t.expiry ≤ now2
      · exact ⟨"Token is invalid or expired", by rw [if_neg hw, if_pos hexp]⟩
      · exact ⟨"Token is blacklisted",
          by rw [if_neg hw, if_neg hexp, if_pos hmem2]⟩

/-- Witness for C5 at a concrete state: logout succeeds on a live token, a
later unrelated logout happens, and a refresh well before expiry fails. -/
theorem revoked_refresh_always_fails_witness :
    (logout (TokenState.mk []) (some (RefreshTok.mk "jti-1" 100 true)) 0).1.status =
      true ∧
    ∃ msg,
      refreshCall
        (applyOps [AuthOp.logoutOp none 3]
          (logout (TokenState.mk [])
            (some (RefreshTok.mk "jti-1" 100 true)) 0).2)
        (RefreshTok.mk "jti-1" 100 true) 5 = Except.error msg :=
  ⟨rfl,
    revoked_refresh_always_fails (TokenState.mk [])
      (RefreshTok.mk "jti-1" 100 true) 0 rfl [AuthOp.logoutOp none 3] 5⟩

/-- C7: login failure messaging.  With both fields supplied, an unknown
email and a wrong password for an existing account produce the identical
401 `Invalid email or password` response, while a correct password for a
deactivated account produces the distinct 401 `Account is disabled`
response. -/
theorem login_error_messages (users : List User) (email password : String)
    (he : email ≠ "") (hp : password ≠ "") :
    (getUserByEmail users (strLower email) = none →
      login users email password =
        error_response "Invalid email or password" [] 401) ∧
    (∀ u, getUserByEmail users (strLower email) = some u →
      u.passwordHash ≠ hashPassword password →
      login users email password =
        error_response "Invalid email or password" [] 401) ∧
    (∀ u, getUserByEmail users (strLower email) = some u →
      u.passwordHash = hashPassword password → u.isActive = false →
      login users email password =
        error_response "Account is disabled" [] 401) := by
  have hne : ¬(email = "" ∨ password = "") := by
    rintro (h | h)
    · exact he h
    · exact hp h
  refine ⟨?_, ?_, ?_⟩
  · intro hnone
    unfold login authenticate
    rw [if_neg hne, hnone]
  · intro u hu hpw
    unfold login authenticate
    rw [if_neg hne, hu]
    simp only [if_neg hpw]
  · intro u hu hpw hact
    unfold login authenticate
    rw [if_neg hne, hu]
    simp only [if_pos hpw, hact]
    rfl

/-- Witness for C7 at a concrete user table: unknown email and wrong
password yield the same uniform response, the deactivated account with the
correct password yields the distinct disabled response. -/
theorem login_error_messages_witness :
    ("ghost@example.com" : String) ≠ "" ∧ ("OldPass99" : String) ≠ "" ∧
    (getUserByEmail demoUsers (strLower "ghost@example.com") = none →
      login demoUsers "ghost@example.com" "OldPass99" =
        error_response "Invalid email or password" [] 401) ∧
    login demoUsers "alice@example.com" "WrongPass1" =
      error_response "Invalid email or password" [] 401 ∧
    login demoUsers "dora@example.com" "OldPass99" =
      error_response "Account is disabled" [] 401 := by
  have hmain := login_error_messages demoUsers "ghost@example.com" "OldPass99"
    (by decide) (by decide)
  refine ⟨by decide, by decide, hmain.1, ?_, ?_⟩
  · exact (login_error_messages demoUsers "alice@example.com" "WrongPass1"
      (by decide) (by decide)).2.1 aliceUser rfl (by decide)
  · exact (login_error_messages demoUsers "dora@example.com" "OldPass99"
      (by decide) (by decide)).2.2 doraUser rfl rfl rfl

/-- C1, counterexample to the claim as stated: the forgot-password responses
are not indistinguishable.  A deactivated account receives HTTP 400 where an
unregistered email receives HTTP 200, and the 200 message for a registered
email with successful delivery differs from the 200 message for an
unregistered email. -/
theorem forgot_enumeration_counterexample :
    (forgotPassword demoUsers demoStore "dora@example.com" "tokC55555"
        true).1.statusCode = 400 ∧
    (forgotPassword demoUsers demoStore "ghost@example.com" "tokC55555"
        true).1.statusCode = 200 ∧
    (forgotPassword demoUsers demoStore "alice@example.com" "tokC55555"
        true).1.message ≠
      (forgotPassword demoUsers demoStore "ghost@example.com" "tokC55555"
        true).1.message := by
  refine ⟨rfl, rfl, by decide⟩

/-- C1 (amended): for a well-formed email, an unregistered address gets the
generic 200 success with no store side effects, and a registered active
address with successful delivery also gets a 200 success envelope (with a
different message text and the token stored); but a deactivated account gets
a distinguishable 400 validation error `This account is disabled.` with no
store side effects. -/
theorem forgot_password_responses
    (users : List User) (store : StoreState) (raw tok : String)
    (hwf : emailWellFormed raw = true) :
    (getUserByEmail users (strLower raw) = none →
      forgotPassword users store raw tok true =
        (success_response
          "If an account with this email exists, a password reset email has been sent."
          RespData.empty 200, store)) ∧
    (∀ u, getUserByEmail users (strLower raw) = some u → u.isActive = false →
      forgotPassword users store raw tok true =
        (validation_error_response [("email", "This account is disabled.")],
          store)) ∧
    (∀ u, getUserByEmail users (strLower raw) = some u → u.isActive = true →
      getActiveUser users (strLower raw) = some u →
      forgotPassword users store raw tok true =
        (success_response
          "Password reset email sent successfully. Please check your email."
          RespData.empty 200,
         (store_reset_token (strLower raw) tok 3600 store).2)) := by
  refine ⟨?_, ?_, ?_⟩
  · intro hnone
    have hact := getActiveUser_none hnone
    unfold forgotPassword forgotPasswordValidate
    simp [hwf, hnone, hact]
  · intro u hu hd
    unfold forgotPassword forgotPasswordValidate
    simp [hwf, hu, hd]
  · intro u hu ha hg
    unfold forgotPassword forgotPasswordValidate
    simp [hwf, hu, ha, hg]

/-- Witness for the amended C1 at a concrete table holding an active user, a
deactivated user, and no user for the third address. -/
theorem forgot_password_responses_witness :
    emailWellFormed "alice@example.com" = true ∧
    emailWellFormed "dora@example.com" = true ∧
    emailWellFormed "ghost@example.com" = true ∧
    forgotPassword demoUsers demoStore "ghost@example.com" "tokC55555" true =
      (success_response
        "If an account with this email exists, a password reset email has been sent."
        RespData.empty 200, demoStore) ∧
    forgotPassword demoUsers demoStore "dora@example.com" "tokC55555" true =
      (validation_error_response [("email", "This account is disabled.")],
        demoStore) ∧
    forgotPassword demoUsers demoStore "alice@example.com" "tokC55555" true =
      (success_response
        "Password reset email sent successfully. Please check your email."
        RespData.empty 200,
       (store_reset_token (strLower "alice@example.com") "tokC55555" 3600
         demoStore).2) := by
  refine ⟨by decide, by decide, by decide, ?_, ?_, ?_⟩
  · exact (forgot_password_responses demoUsers demoStore "ghost@example.com"
      "tokC55555" (by decide)).1 rfl
  · exact (forgot_password_responses demoUsers demoStore "dora@example.com"
      "tokC55555" (by decide)).2.1 doraUser rfl rfl
  · exact (forgot_password_responses demoUsers demoStore "alice@example.com"
      "tokC55555" (by decide)).2.2 aliceUser rfl rfl rfl

end BillPay
